import Mathlib

/-!
Shallow embedding of the 10kV feeder reliability calculation engine
(`src/workspace/reliability_framework.py`, with the constant table of
`src/workspace/reliability_calc_jingshuixian.py`).

Modelling conventions:
* Python floats are idealised as exact rationals (`ℚ`); the spec states its
  numeric properties "within floating tolerance", and no claim hinges on
  binary-float representation error.  The literal forms `inf`/`nan` and
  digit underscores accepted by the Python `float` constructor have no
  rational counterpart and are outside the model.
* Strings are handled as `List Char` (obtained from `String.data`), and each
  Python string primitive used by the code (`strip`, `upper`, `split`,
  `rsplit(":", 1)`, `rstrip("%")`, substring test) is re-implemented as a
  structural recursion with the same behaviour on the relevant inputs.
* The display-only description string returned by the construction parser
  (fourth tuple component, "电缆x%+架空y%") is not consumed by any
  downstream computation and is omitted from the model.
* `pandas`/`numpy` column arithmetic is modelled row-at-a-time; `np.where`
  becomes `if`.  The spec itself notes vectorisation is an optimisation,
  not a semantic requirement.
* The feeder-level combination in `run` divides by the combined user count
  with no zero guard (unlike the group level); the model returns an
  `Except` error for that division instead of a number.
-/

/-- Python `str.strip` whitespace set (ASCII part). -/
def isPySpace (c : Char) : Bool :=
  c = ' ' || c = '\t' || c = '\n' || c = '\r' || c = '\x0b' || c = '\x0c'

/-- Drop leading whitespace characters. -/
def dropLeadingWS : List Char → List Char
  | [] => []
  | c :: cs => if isPySpace c then dropLeadingWS cs else c :: cs

/-- Python `str.strip()`: drop whitespace at both ends. -/
def trimChars (cs : List Char) : List Char :=
  (dropLeadingWS (dropLeadingWS cs).reverse).reverse

/-- Python `str.split("\n")`: split into lines at every newline character. -/
def splitLines : List Char → List (List Char)
  | [] => [[]]
  | c :: cs =>
    let r := splitLines cs
    if c = '\n' then [] :: r
    else
      match r with
      | [] => [[c]]
      | l :: ls => (c :: l) :: ls

/-- Python `s.replace("\r", "\n")` on a character list. -/
def crToNl (cs : List Char) : List Char :=
  cs.map fun c => if c = '\r' then '\n' else c

/-- Drop leading percent signs (used on a reversed list to model
Python `str.rstrip("%")`, which removes every trailing percent sign). -/
def dropLeadingPercent : List Char → List Char
  | [] => []
  | c :: cs => if c = '%' then dropLeadingPercent cs else c :: cs

/-- Python `str.rstrip("%")`. -/
def rstripPercent (cs : List Char) : List Char :=
  (dropLeadingPercent cs.reverse).reverse

/-- Python `str.upper()` (ASCII part). -/
def pyUpper (cs : List Char) : List Char := cs.map Char.toUpper

/-- Split at the last colon: `lastColonSplit cs = some (name, value)` with
`cs = name ++ [the colon] ++ value` and no colon in `value`; `none` when `cs`
holds no colon.  This models the combination of the Python guard
`":" not in seg` with `seg.rsplit(":", 1)`. -/
def lastColonSplit : List Char → Option (List Char × List Char)
  | [] => none
  | c :: cs =>
    match lastColonSplit cs with
    | some (n, v) => some (c :: n, v)
    | none => if c = ':' then some ([], cs) else none

/-- Two-character lookahead for the substring test. -/
def startsJK : List Char → Bool
  | c1 :: c2 :: _ => c1 = 'J' && c2 = 'K'
  | _ => false

/-- Python `"JK" in name`: does the character list contain `J` directly
followed by `K`. -/
def hasJK : List Char → Bool
  | [] => false
  | c :: cs => startsJK (c :: cs) || hasJK cs

/-- Syntactic form of a decimal literal accepted by the Python `float`
constructor (finite decimal forms: optional sign, digits with at most one
dot, optional exponent). -/
structure DecLit where
  neg : Bool
  ip : ℕ
  fp : ℕ
  fplen : ℕ
  eneg : Bool
  ev : ℕ
deriving DecidableEq, Repr

/-- Numeric value of a digit string. -/
def digitsVal (cs : List Char) : ℕ :=
  cs.foldl (fun a c => a * 10 + (c.toNat - 48)) 0

/-- Boolean test that every character is an ASCII digit. -/
def allDigits (cs : List Char) : Bool := cs.all Char.isDigit

/-- Split a mantissa at the (first) dot. -/
def splitAtDot (cs : List Char) : List Char × Option (List Char) :=
  match cs with
  | [] => ([], none)
  | c :: rest =>
    if c = '.' then ([], some rest)
    else
      match splitAtDot rest with
      | (a, b) => (c :: a, b)

/-- Split at the (first) exponent marker `e` or `E`. -/
def splitAtExp (cs : List Char) : List Char × Option (List Char) :=
  match cs with
  | [] => ([], none)
  | c :: rest =>
    if c = 'e' || c = 'E' then ([], some rest)
    else
      match splitAtExp rest with
      | (a, b) => (c :: a, b)

/-- Parse `digits`, `digits.digits`, `digits.` or `.digits` into
(integer part, fraction part, fraction length). -/
def parseMantissa : List Char → Option (ℕ × ℕ × ℕ) := fun cs =>
  match splitAtDot cs with
  | (ip, none) =>
    if allDigits ip && !ip.isEmpty then some (digitsVal ip, 0, 0) else none
  | (ip, some fp) =>
    if allDigits ip && allDigits fp && !(ip.isEmpty && fp.isEmpty) then
      some (digitsVal ip, digitsVal fp, fp.length)
    else none

/-- Parse an exponent part: optional sign, then at least one digit. -/
def parseExpPart : List Char → Option (Bool × ℕ)
  | '+' :: r => if allDigits r && !r.isEmpty then some (false, digitsVal r) else none
  | '-' :: r => if allDigits r && !r.isEmpty then some (true, digitsVal r) else none
  | r => if allDigits r && !r.isEmpty then some (false, digitsVal r) else none

/-- Parse an unsigned decimal literal with optional exponent. -/
def parseUnsignedDec (cs : List Char) : Option DecLit :=
  match splitAtExp cs with
  | (m, none) =>
    (parseMantissa m).map fun t => ⟨false, t.1, t.2.1, t.2.2, false, 0⟩
  | (m, some e) =>
    match parseMantissa m, parseExpPart e with
    | some t, some ex => some ⟨false, t.1, t.2.1, t.2.2, ex.1, ex.2⟩
    | _, _ => none

/-- Parse a decimal literal in the forms the Python `float` constructor
accepts (idealised to its finite decimal fragment). -/
def parseDecimal : List Char → Option DecLit
  | '+' :: r => parseUnsignedDec r
  | '-' :: r => (parseUnsignedDec r).map fun d => { d with neg := true }
  | cs => parseUnsignedDec cs

/-- Rational value of a parsed decimal literal. -/
def DecLit.val (d : DecLit) : ℚ :=
  let m : ℚ := (d.ip : ℚ) + (d.fp : ℚ) / 10 ^ d.fplen
  let s : ℚ := if d.neg then -m else m
  if d.eneg then s / 10 ^ d.ev else s * 10 ^ d.ev

/-- Constant table of the engine (`CONSTANTS` in
`reliability_calc_jingshuixian.py`, `config["constants"]` in
`reliability_framework.py`). -/
structure Constants where
  Cable_Fault_Rate : ℚ
  Overhead_Fault_Rate : ℚ
  Auto_Isolation_Time : ℚ
  Manual_Isolation_Time : ℚ
  Cable_Repair_Time : ℚ
  Scheduled_Outage_Rate : ℚ
  Scheduled_Total_Time : ℚ
  Annual_Power_Hours : ℚ

/-- Default constant values from `reliability_calc_jingshuixian.py`. -/
def defaultConstants : Constants :=
  { Cable_Fault_Rate := 9282879 / 10 ^ 8
    Overhead_Fault_Rate := 15337829 / 10 ^ 8
    Auto_Isolation_Time := 557 / 10 ^ 3
    Manual_Isolation_Time := 2
    Cable_Repair_Time := 3073 / 10 ^ 3
    Scheduled_Outage_Rate := 221 / 10 ^ 4
    Scheduled_Total_Time := 5475 / 10 ^ 3
    Annual_Power_Hours := 8760 }

/-- Uppercased name "NONE". -/
def NONEchars : List Char := ['N', 'O', 'N', 'E']

/-- Per-token analysis of the construction-descriptor loop body in
`parse_laying_weights_and_fault_rate`: `none` when the token is skipped
(no colon, name "NONE" or empty after trimming, or unparsable percentage),
otherwise `some (overhead?, lit)` where `overhead?` is the `"JK" in name`
test on the uppercased name and `lit` is the parsed percentage literal. -/
def tokenScan (seg : List Char) : Option (Bool × DecLit) :=
  match lastColonSplit seg with
  | none => none
  | some (n, v) =>
    let nameRaw := trimChars n
    let name := pyUpper nameRaw
    if name = NONEchars || nameRaw.isEmpty then none
    else
      match parseDecimal (trimChars (rstripPercent (trimChars v))) with
      | none => none
      | some d => some (hasJK name, d)

/-- Accumulate one scanned token: its weight is the parsed percentage
divided by 100, added to the overhead bucket when the `JK` test held and to
the cable bucket otherwise. -/
def addTok (acc : ℚ × ℚ) (t : Bool × DecLit) : ℚ × ℚ :=
  if t.1 then (acc.1, acc.2 + t.2.val / 100) else (acc.1 + t.2.val / 100, acc.2)

/-- One step of the descriptor loop: accumulate the token weight into the
(cable, overhead) pair, or leave the pair unchanged for a skipped token. -/
def stepToken (acc : ℚ × ℚ) (seg : List Char) : ℚ × ℚ :=
  match tokenScan seg with
  | none => acc
  | some t => addTok acc t

/-- Token list of a descriptor:
`[x.strip() for x in s.replace("\r", "\n").split("\n") if x.strip()]`. -/
def pyTokens (s : List Char) : List (List Char) :=
  ((splitLines (crToNl s)).map trimChars).filter fun x => !x.isEmpty

/-- Accumulated (cable, overhead) weights of a descriptor before
normalisation. -/
def parseLayingAccum (lineModel : String) : ℚ × ℚ :=
  (pyTokens (trimChars lineModel.data)).foldl stepToken (0, 0)

/-- Result triple of the construction parser (the display-only description
string is omitted). -/
structure LayingResult where
  cableWeight : ℚ
  overheadWeight : ℚ
  faultRate : ℚ
deriving DecidableEq

/-- Model of `parse_laying_weights_and_fault_rate` from
`reliability_framework.py` lines 32 to 63. -/
def parse_laying_weights_and_fault_rate (lineModel : String) (k : Constants) :
    LayingResult :=
  let acc := parseLayingAccum lineModel
  let cable_w : ℚ := if acc.1 + acc.2 ≤ 0 then 0 else acc.1
  let overhead_w : ℚ := if acc.1 + acc.2 ≤ 0 then 1 else acc.2
  let total : ℚ := if acc.1 + acc.2 ≤ 0 then 1 else acc.1 + acc.2
  { cableWeight := cable_w / total
    overheadWeight := overhead_w / total
    faultRate :=
      (cable_w * k.Cable_Fault_Rate + overhead_w * k.Overhead_Fault_Rate) / total }

/-- Scanned (accepted) tokens of a descriptor, in order: the fold of
`stepToken` over the raw tokens equals the fold of `addTok` over this list
(`parseLayingAccum_eq` below). -/
def scannedTokens (lineModel : String) : List (Bool × DecLit) :=
  (pyTokens (trimChars lineModel.data)).filterMap tokenScan

/-- Extraction of a token name as classified by the loop: the part before
the last colon, trimmed and uppercased. -/
def tokenName (seg : List Char) : List Char :=
  match lastColonSplit seg with
  | some (n, _) => pyUpper (trimChars n)
  | none => []

/-- Specification-side sum of the weights of the tokens of one class:
`isOv = true` collects tokens whose scan succeeded with the overhead flag,
`isOv = false` the cable ones. -/
def classWeightSum (isOv : Bool) (toks : List (List Char)) : ℚ :=
  (toks.map fun t =>
    match tokenScan t with
    | none => 0
    | some (b, d) => if b = isOv then d.val / 100 else 0).sum

/-- Automation-status cell: a native boolean or an arbitrary string. -/
inductive AutoStatus where
  | bool (b : Bool)
  | str (s : String)

/-- Model of `get_isolation_time` (`reliability_framework.py` lines 66 to
69): native booleans select directly, strings are uppercased and compared
with "TRUE", anything else falls back to the manual isolation time. -/
def get_isolation_time (autoStatus : AutoStatus) (k : Constants) : ℚ :=
  match autoStatus with
  | .bool b => if b then k.Auto_Isolation_Time else k.Manual_Isolation_Time
  | .str s =>
    if pyUpper s.data = ("TRUE".data) then k.Auto_Isolation_Time
    else k.Manual_Isolation_Time

/-- A cleaned segment row after field mapping, numeric cleaning (step 4)
and enrichment with the parsed fault rate and isolation time (steps 5 and
7 of `run`).  Lengths and user counts are the coerced numeric values, both
nonnegative after `clean_data`. -/
structure SegRow where
  lengthKm : ℚ
  userCount : ℚ
  faultRate : ℚ
  isolationTime : ℚ

/-- Enrichment of a cleaned row exactly as `run` does it: fault rate from
the construction parser, isolation time from the automation status. -/
def mkRow (lengthKm userCount : ℚ) (autoStatus : AutoStatus)
    (descriptor : String) (k : Constants) : SegRow :=
  { lengthKm := lengthKm
    userCount := userCount
    faultRate := (parse_laying_weights_and_fault_rate descriptor k).faultRate
    isolationTime := get_isolation_time autoStatus k }

/-- Derived indicator columns of one segment row. -/
structure SegIndicators where
  faultCount : ℚ
  faultDuration : ℚ
  scheduledCount : ℚ
  saidiF : ℚ
  saifiF : ℚ
  saidiS : ℚ
  saifiS : ℚ
  saidiTotal : ℚ
  saifiTotal : ℚ

/-- Model of `calculate_segment_indicators` (`reliability_framework.py`
lines 81 to 118), one row at a time; `np.where(cond, x, 0)` becomes
`if cond then x else 0` (the selected value is identical; numpy merely also
evaluates the discarded branch without fault). -/
def calculate_segment_indicators (r : SegRow) (lineTotalUsers : ℚ)
    (k : Constants) : SegIndicators :=
  let valid := 0 < r.userCount
  let faultCount : ℚ := if valid then r.lengthKm * r.faultRate else 0
  let faultDuration : ℚ := r.isolationTime + k.Cable_Repair_Time
  let saidiF : ℚ :=
    if valid ∧ 0 < lineTotalUsers then
      faultCount * faultDuration * r.userCount / lineTotalUsers
    else 0
  let saifiF : ℚ :=
    if valid ∧ 0 < lineTotalUsers then
      faultCount * r.userCount / lineTotalUsers
    else 0
  let scheduledCount : ℚ :=
    if valid then r.lengthKm * k.Scheduled_Outage_Rate else 0
  let saidiS : ℚ :=
    if valid ∧ 0 < lineTotalUsers then
      scheduledCount * k.Scheduled_Total_Time * r.userCount / lineTotalUsers
    else 0
  let saifiS : ℚ :=
    if valid ∧ 0 < lineTotalUsers then
      scheduledCount * r.userCount / lineTotalUsers
    else 0
  { faultCount := faultCount
    faultDuration := faultDuration
    scheduledCount := scheduledCount
    saidiF := saidiF
    saifiF := saifiF
    saidiS := saidiS
    saifiS := saifiS
    saidiTotal := saidiF + saidiS
    saifiTotal := saifiF + saifiS }

/-- Python bankers rounding (`round(q, n)` via `roundTo n q`), idealised to
exact rationals: round half to even. -/
def roundHalfEven (q : ℚ) : ℤ :=
  let f := ⌊q⌋
  let r := q - f
  if r < 1 / 2 then f
  else if 1 / 2 < r then f + 1
  else if f % 2 = 0 then f else f + 1

/-- Python `round(q, n)` on the exact rational value. -/
def roundTo (n : ℕ) (q : ℚ) : ℚ :=
  (roundHalfEven (q * 10 ^ n) : ℚ) / 10 ^ n

/-- Indicator rows of a group. -/
def indList (rows : List SegRow) (lineTotalUsers : ℚ) (k : Constants) :
    List SegIndicators :=
  rows.map fun r => calculate_segment_indicators r lineTotalUsers k

/-- Column sum `df["长度(km)"].sum()`. -/
def sumLength (rows : List SegRow) : ℚ := (rows.map SegRow.lengthKm).sum

/-- Column sum of fault counts. -/
def sumFaultCount (rows : List SegRow) (u : ℚ) (k : Constants) : ℚ :=
  ((indList rows u k).map SegIndicators.faultCount).sum

/-- Column sum of scheduled-outage counts. -/
def sumScheduledCount (rows : List SegRow) (u : ℚ) (k : Constants) : ℚ :=
  ((indList rows u k).map SegIndicators.scheduledCount).sum

/-- Column sum of SAIDI-F. -/
def sumSaidiF (rows : List SegRow) (u : ℚ) (k : Constants) : ℚ :=
  ((indList rows u k).map SegIndicators.saidiF).sum

/-- Column sum of SAIDI-S. -/
def sumSaidiS (rows : List SegRow) (u : ℚ) (k : Constants) : ℚ :=
  ((indList rows u k).map SegIndicators.saidiS).sum

/-- Column sum of SAIFI-F. -/
def sumSaifiF (rows : List SegRow) (u : ℚ) (k : Constants) : ℚ :=
  ((indList rows u k).map SegIndicators.saifiF).sum

/-- Column sum of SAIFI-S. -/
def sumSaifiS (rows : List SegRow) (u : ℚ) (k : Constants) : ℚ :=
  ((indList rows u k).map SegIndicators.saifiS).sum

/-- The local `saidi_total` of `calculate_summary`. -/
def groupSaidiTotal (rows : List SegRow) (u : ℚ) (k : Constants) : ℚ :=
  sumSaidiF rows u k + sumSaidiS rows u k

/-- The local `saifi_total` of `calculate_summary`. -/
def groupSaifiTotal (rows : List SegRow) (u : ℚ) (k : Constants) : ℚ :=
  sumSaifiF rows u k + sumSaifiS rows u k

/-- The local `asai` of `calculate_summary` (`reliability_framework.py`
lines 131 to 136), before rounding: the guarded
`((theory_hours - outage_hours) / theory_hours) * 100` with fallback
`100.0` for a group with no users. -/
def groupAsai (rows : List SegRow) (u : ℚ) (k : Constants) : ℚ :=
  if 0 < u then
    ((u * k.Annual_Power_Hours - groupSaidiTotal rows u k * u) /
        (u * k.Annual_Power_Hours)) * 100
  else 100

/-- Reported group summary record (`calculate_summary` return value,
`reliability_framework.py` lines 139 to 152): every numeric field except
the user count is rounded at reporting. -/
structure GroupSummary where
  totalLength : ℚ
  totalUsers : ℚ
  totalFaultCount : ℚ
  totalScheduledCount : ℚ
  saidiF : ℚ
  saidiS : ℚ
  saidiTotal : ℚ
  saifiF : ℚ
  saifiS : ℚ
  saifiTotal : ℚ
  asai : ℚ

/-- Model of `calculate_summary` (`reliability_framework.py` lines 121 to
152). -/
def calculate_summary (rows : List SegRow) (lineTotalUsers : ℚ)
    (k : Constants) : GroupSummary :=
  { totalLength := roundTo 4 (sumLength rows)
    totalUsers := lineTotalUsers
    totalFaultCount := roundTo 6 (sumFaultCount rows lineTotalUsers k)
    totalScheduledCount := roundTo 6 (sumScheduledCount rows lineTotalUsers k)
    saidiF := roundTo 6 (sumSaidiF rows lineTotalUsers k)
    saidiS := roundTo 6 (sumSaidiS rows lineTotalUsers k)
    saidiTotal := roundTo 6 (groupSaidiTotal rows lineTotalUsers k)
    saifiF := roundTo 6 (sumSaifiF rows lineTotalUsers k)
    saifiS := roundTo 6 (sumSaifiS rows lineTotalUsers k)
    saifiTotal := roundTo 6 (groupSaifiTotal rows lineTotalUsers k)
    asai := roundTo 6 (groupAsai rows lineTotalUsers k) }

/-- Reported feeder (whole-line) summary record built in step 9 of `run`. -/
structure FeederSummary where
  totalLength : ℚ
  totalUsers : ℚ
  totalFaultCount : ℚ
  totalScheduledCount : ℚ
  saidiF : ℚ
  saidiS : ℚ
  saidiTotal : ℚ
  saifiF : ℚ
  saifiS : ℚ
  saifiTotal : ℚ
  asai : ℚ

/-- Local `all_saidi_f` of `run` (line 259): user-weighted average of the
reported (already rounded) group SAIDI-F values. -/
def all_saidi_f (ms bs : GroupSummary) (mu bu : ℚ) : ℚ :=
  (ms.saidiF * mu + bs.saidiF * bu) / (mu + bu)

/-- Local `all_saidi_s` of `run` (line 260). -/
def all_saidi_s (ms bs : GroupSummary) (mu bu : ℚ) : ℚ :=
  (ms.saidiS * mu + bs.saidiS * bu) / (mu + bu)

/-- Local `all_saifi_f` of `run` (line 262). -/
def all_saifi_f (ms bs : GroupSummary) (mu bu : ℚ) : ℚ :=
  (ms.saifiF * mu + bs.saifiF * bu) / (mu + bu)

/-- Local `all_saifi_s` of `run` (line 263). -/
def all_saifi_s (ms bs : GroupSummary) (mu bu : ℚ) : ℚ :=
  (ms.saifiS * mu + bs.saifiS * bu) / (mu + bu)

/-- Local `all_asai` of `run` (lines 265 to 266):
`((all_theory - all_saidi_total * all_total_users) / all_theory) * 100`
with `all_theory = all_total_users * Annual_Power_Hours` and
`all_saidi_total = all_saidi_f + all_saidi_s`. -/
def all_asai (ms bs : GroupSummary) (mu bu : ℚ) (k : Constants) : ℚ :=
  ((mu + bu) * k.Annual_Power_Hours -
      (all_saidi_f ms bs mu bu + all_saidi_s ms bs mu bu) * (mu + bu)) /
    ((mu + bu) * k.Annual_Power_Hours) * 100

/-- Specification-side formula of section 4.5 for one feeder intensity
metric: the user-count-weighted average
`sum(group.metric * group.groupTotalUsers) / totalUsers` over the two
groups, from the reported group-level values. -/
def specWeightedAvg (x y mu bu : ℚ) : ℚ := (x * mu + y * bu) / (mu + bu)

/-- Model of step 9 of `run` (`reliability_framework.py` lines 258 to
280).  The Python code divides by `all_total_users` with no zero guard
(unlike the group level); dividing there by a zero combined user count is
a fault (a `ZeroDivisionError` on plain floats, NaN propagation on numpy
scalars), which the model returns as an error value. -/
def feederCombine (ms bs : GroupSummary) (mu bu : ℚ) (k : Constants) :
    Except String FeederSummary :=
  if mu + bu = 0 then Except.error "division by zero combined user count"
  else
    Except.ok
      { totalLength := roundTo 4 (ms.totalLength + bs.totalLength)
        totalUsers := mu + bu
        totalFaultCount := roundTo 6 (ms.totalFaultCount + bs.totalFaultCount)
        totalScheduledCount :=
          roundTo 6 (ms.totalScheduledCount + bs.totalScheduledCount)
        saidiF := roundTo 6 (all_saidi_f ms bs mu bu)
        saidiS := roundTo 6 (all_saidi_s ms bs mu bu)
        saidiTotal :=
          roundTo 6 (all_saidi_f ms bs mu bu + all_saidi_s ms bs mu bu)
        saifiF := roundTo 6 (all_saifi_f ms bs mu bu)
        saifiS := roundTo 6 (all_saifi_s ms bs mu bu)
        saifiTotal :=
          roundTo 6 (all_saifi_f ms bs mu bu + all_saifi_s ms bs mu bu)
        asai := roundTo 6 (all_asai ms bs mu bu k) }

/-- Steps 6, 8 and 9 of `run`: group user totals (`int(sum)`, here the
floor of the nonnegative numeric sum), the two group summaries and the
feeder combination. -/
def run_feeder (mainRows branchRows : List SegRow) (k : Constants) :
    Except String (GroupSummary × GroupSummary × FeederSummary) :=
  let mu : ℚ := ((⌊(mainRows.map SegRow.userCount).sum⌋ : ℤ) : ℚ)
  let bu : ℚ := ((⌊(branchRows.map SegRow.userCount).sum⌋ : ℤ) : ℚ)
  let ms := calculate_summary mainRows mu k
  let bs := calculate_summary branchRows bu k
  (feederCombine ms bs mu bu k).map fun fs => (ms, bs, fs)

/-- Concrete descriptor of the renormalisation scenario (claim C3). -/
def descC3 : String := "PD_JKLYJ: 71.43%\nNone: 14.29%\nPD_VLY: 14.29%"

/-- Concrete pure-cable descriptor of the section 8 scenario. -/
def descC4 : String := "PD_VLY-300: 100%"

/-- Descriptor with a negative percentage token: accepted by the parser
and driving the cable weight below zero. -/
def descNegW : String := "A: -50%\nJKB: 100%"

/-- Descriptor whose weighted fault rate is negative. -/
def descNegRate : String := "JKA: -500%\nB: 600%"

/-- Descriptor with no parseable token at all. -/
def descNoColon : String := "no separator in this text"

/-- Section 8 scenario row: length 2 km, 100 users, automated, pure
cable. -/
def rowC4 : SegRow := mkRow 2 100 (AutoStatus.bool true) descC4 defaultConstants

/-- Row engineered so that the 6-decimal rounding of SAIDI-F and SAIDI-S
does not distribute over their sum. -/
def rowC7 : SegRow :=
  mkRow (4 / 1209975) 100 (AutoStatus.bool true) descC4 defaultConstants

/-- Second group row for the feeder ASAI comparison: 4 km, 50 users, not
automated, pure cable. -/
def rowC8b : SegRow :=
  mkRow 4 50 (AutoStatus.bool false) descC4 defaultConstants

/-- A zero-user segment row (invalid segment). -/
def rowC5 : SegRow :=
  mkRow 3 0 (AutoStatus.str "FALSE") descC4 defaultConstants

/-- A very long automated cable segment: its SAIDI total exceeds the
annual hours. -/
def rowC10long : SegRow :=
  mkRow (10 ^ 6) 100 (AutoStatus.bool true) descC4 defaultConstants

/-- A segment whose parsed fault rate is negative. -/
def rowC10neg : SegRow :=
  mkRow 100 100 (AutoStatus.bool true) descNegRate defaultConstants

/-- Main group summary of the C7 rounding scenario. -/
def msC7 : GroupSummary := calculate_summary [rowC7] 100 defaultConstants

/-- Branch group summary of the C7 rounding scenario (empty group). -/
def bsC7 : GroupSummary := calculate_summary [] 0 defaultConstants

/-- Main group summary of the feeder ASAI comparison. -/
def msC8 : GroupSummary := calculate_summary [rowC4] 100 defaultConstants

/-- Branch group summary of the feeder ASAI comparison. -/
def bsC8 : GroupSummary := calculate_summary [rowC8b] 50 defaultConstants

/-! ### Helper lemmas -/

/-- The raw descriptor loop equals the fold of `addTok` over the scanned
tokens. -/
theorem foldl_stepToken_eq (toks : List (List Char)) (acc : ℚ × ℚ) :
    toks.foldl stepToken acc = (toks.filterMap tokenScan).foldl addTok acc := by
  induction toks generalizing acc with
  | nil => rfl
  | cons t ts ih =>
    simp only [List.foldl_cons, List.filterMap_cons, stepToken]
    cases h : tokenScan t with
    | none => simp only [h, ih]
    | some v => simp only [h, List.foldl_cons, ih]

/-- The accumulated pair in terms of the scanned token list. -/
theorem parseLayingAccum_eq (s : String) :
    parseLayingAccum s = (scannedTokens s).foldl addTok (0, 0) := by
  unfold parseLayingAccum scannedTokens
  exact foldl_stepToken_eq _ _

/-- Characterisation of the descriptor fold: the cable component collects
exactly the non-`JK` scanned weights, the overhead component exactly the
`JK` ones. -/
theorem foldl_stepToken_classSums (toks : List (List Char)) (a b : ℚ) :
    toks.foldl stepToken (a, b) =
      (a + classWeightSum false toks, b + classWeightSum true toks) := by
  induction toks generalizing a b with
  | nil => simp [classWeightSum]
  | cons t ts ih =>
    simp only [List.foldl_cons, stepToken, classWeightSum, List.map_cons,
      List.sum_cons]
    cases h : tokenScan t with
    | none =>
      simp only [h, ih]
      simp [classWeightSum]
    | some v =>
      obtain ⟨bflag, d⟩ := v
      cases bflag with
      | false =>
        simp only [h, addTok, Bool.false_eq_true, if_false, ih]
        simp [classWeightSum]
        ring
      | true =>
        simp only [h, addTok, if_true, ih]
        simp [classWeightSum]
        ring

/-- Accumulated weights as class sums over the token list. -/
theorem parseLayingAccum_classSums (s : String) :
    parseLayingAccum s =
      (classWeightSum false (pyTokens (trimChars s.data)),
       classWeightSum true (pyTokens (trimChars s.data))) := by
  unfold parseLayingAccum
  rw [foldl_stepToken_classSums]
  simp

/-- The boolean `JK` scan agrees with list-infix containment of `JK`. -/
theorem hasJK_iff (cs : List Char) : hasJK cs = true ↔ ['J', 'K'] <:+: cs := by
  induction cs with
  | nil =>
    simp [hasJK]
  | cons c cs ih =>
    rw [List.infix_cons_iff]
    simp only [hasJK, Bool.or_eq_true, ih]
    constructor
    · rintro (hs | hi)
      · left
        cases cs with
        | nil => simp [startsJK] at hs
        | cons d ds =>
          simp only [startsJK, Bool.and_eq_true, decide_eq_true_eq] at hs
          rw [hs.1, hs.2]
          exact List.cons_prefix_cons.mpr ⟨rfl, List.cons_prefix_cons.mpr ⟨rfl, List.nil_prefix⟩⟩
      · right; exact hi
    · rintro (hp | hi)
      · left
        cases cs with
        | nil =>
          have := hp.length_le
          simp at this
        | cons d ds =>
          rw [List.cons_prefix_cons] at hp
          obtain ⟨h1, hp2⟩ := hp
          rw [List.cons_prefix_cons] at hp2
          simp [startsJK, h1.symm, hp2.1.symm]
      · right; exact hi

/-- Rounding evaluates to the floor when the fractional part is below one
half. -/
theorem roundHalfEven_eq_low (q : ℚ) (n : ℤ) (h1 : (n : ℚ) ≤ q)
    (h2 : q < (n : ℚ) + 1 / 2) : roundHalfEven q = n := by
  have hf : ⌊q⌋ = n := Int.floor_eq_iff.mpr ⟨h1, by linarith⟩
  simp only [roundHalfEven, hf]
  rw [if_pos (by linarith)]

/-- Rounding evaluates to the ceiling when the fractional part is above
one half. -/
theorem roundHalfEven_eq_high (q : ℚ) (n : ℤ) (h1 : (n : ℚ) + 1 / 2 < q)
    (h2 : q < (n : ℚ) + 1) : roundHalfEven q = n + 1 := by
  have hf : ⌊q⌋ = n := Int.floor_eq_iff.mpr ⟨by linarith, by linarith⟩
  simp only [roundHalfEven, hf]
  rw [if_neg (by linarith), if_pos (by linarith)]

/-- Evaluation rule for `roundTo` in the round-down case. -/
theorem roundTo_eq_low (k : ℕ) (q c : ℚ) (n : ℤ) (h1 : (n : ℚ) ≤ q * 10 ^ k)
    (h2 : q * 10 ^ k < (n : ℚ) + 1 / 2) (hc : (n : ℚ) / 10 ^ k = c) :
    roundTo k q = c := by
  unfold roundTo
  rw [roundHalfEven_eq_low (q * 10 ^ k) n h1 h2, hc]

/-- Evaluation rule for `roundTo` in the round-up case. -/
theorem roundTo_eq_high (k : ℕ) (q c : ℚ) (n : ℤ)
    (h1 : (n : ℚ) + 1 / 2 < q * 10 ^ k) (h2 : q * 10 ^ k < (n : ℚ) + 1)
    (hc : ((n : ℚ) + 1) / 10 ^ k = c) : roundTo k q = c := by
  unfold roundTo
  rw [roundHalfEven_eq_high (q * 10 ^ k) n h1 h2]
  push_cast
  exact hc

/-- Bankers rounding stays below any integer bound separated by one half. -/
theorem roundHalfEven_lt (q : ℚ) (m : ℤ) (h : q < (m : ℚ) - 1 / 2) :
    roundHalfEven q < m := by
  have hle : (⌊q⌋ : ℚ) ≤ q := Int.floor_le q
  have hlt : q < (⌊q⌋ : ℚ) + 1 := Int.lt_floor_add_one q
  simp only [roundHalfEven]
  split_ifs with h1 h2 h3
  · have : (⌊q⌋ : ℚ) < m := by linarith
    exact_mod_cast this
  · have : (⌊q⌋ : ℚ) + 1 < m := by linarith
    exact_mod_cast this
  · have : (⌊q⌋ : ℚ) < m := by linarith
    exact_mod_cast this
  · have hr : q - (⌊q⌋ : ℚ) = 1 / 2 := le_antisymm (not_lt.mp h2) (not_lt.mp h1)
    have : (⌊q⌋ : ℚ) + 1 < m := by linarith
    exact_mod_cast this

/-- Bankers rounding stays above any integer bound separated by one
half. -/
theorem roundHalfEven_gt (q : ℚ) (m : ℤ) (h : (m : ℚ) + 1 / 2 < q) :
    m < roundHalfEven q := by
  have hle : (⌊q⌋ : ℚ) ≤ q := Int.floor_le q
  have hlt : q < (⌊q⌋ : ℚ) + 1 := Int.lt_floor_add_one q
  simp only [roundHalfEven]
  split_ifs with h1 h2 h3
  · have : (m : ℚ) < ⌊q⌋ := by linarith
    exact_mod_cast this
  · have : (m : ℚ) < (⌊q⌋ : ℚ) + 1 := by linarith
    exact_mod_cast this
  · have hr : q - (⌊q⌋ : ℚ) = 1 / 2 := le_antisymm (not_lt.mp h2) (not_lt.mp h1)
    have : (m : ℚ) < ⌊q⌋ := by linarith
    exact_mod_cast this
  · have : (m : ℚ) < (⌊q⌋ : ℚ) + 1 := by linarith
    exact_mod_cast this

/-! ### Concrete scans and row evaluations -/

/-- Scanned token list of the pure-cable section 8 descriptor. -/
theorem scannedTokens_descC4 :
    scannedTokens descC4 = [(false, ⟨false, 100, 0, 0, false, 0⟩)] := by
  decide

/-- Scanned token list of the renormalisation descriptor: the "None" line
is dropped, the other two lines parse with flags overhead and cable. -/
theorem scannedTokens_descC3 :
    scannedTokens descC3 =
      [(true, ⟨false, 71, 43, 2, false, 0⟩),
       (false, ⟨false, 14, 29, 2, false, 0⟩)] := by
  decide

/-- Scanned token list of the negative-weight descriptor. -/
theorem scannedTokens_descNegW :
    scannedTokens descNegW =
      [(false, ⟨true, 50, 0, 0, false, 0⟩),
       (true, ⟨false, 100, 0, 0, false, 0⟩)] := by
  decide

/-- Scanned token list of the negative-rate descriptor. -/
theorem scannedTokens_descNegRate :
    scannedTokens descNegRate =
      [(true, ⟨true, 500, 0, 0, false, 0⟩),
       (false, ⟨false, 600, 0, 0, false, 0⟩)] := by
  decide

/-- Scanned token list of the descriptor with no separator. -/
theorem scannedTokens_descNoColon : scannedTokens descNoColon = [] := by
  decide

/-- Accumulated weights for the pure-cable descriptor. -/
theorem accum_descC4 : parseLayingAccum descC4 = (1, 0) := by
  rw [parseLayingAccum_eq, scannedTokens_descC4]
  simp only [List.foldl_cons, List.foldl_nil, addTok, DecLit.val]
  norm_num

/-- Parser output for the pure-cable descriptor. -/
theorem parse_descC4 :
    parse_laying_weights_and_fault_rate descC4 defaultConstants =
      ⟨1, 0, 9282879 / 10 ^ 8⟩ := by
  unfold parse_laying_weights_and_fault_rate
  rw [accum_descC4]
  norm_num [defaultConstants]

/-- Evaluated section 8 scenario row. -/
theorem rowC4_eval :
    rowC4 =
      { lengthKm := 2, userCount := 100, faultRate := 9282879 / 10 ^ 8
        isolationTime := 557 / 10 ^ 3 } := by
  unfold rowC4 mkRow
  rw [parse_descC4]
  simp [get_isolation_time, defaultConstants]

/-- Indicator record of the section 8 scenario segment. -/
theorem ind_rowC4 :
    calculate_segment_indicators rowC4 100 defaultConstants =
      { faultCount := 18565758 / 10 ^ 8, faultDuration := 363 / 100
        scheduledCount := 442 / 10 ^ 4, saidiF := 6739370154 / 10 ^ 10
        saifiF := 18565758 / 10 ^ 8, saidiS := 241995 / 10 ^ 6
        saifiS := 442 / 10 ^ 4, saidiTotal := 9159320154 / 10 ^ 10
        saifiTotal := 22985758 / 10 ^ 8 } := by
  rw [rowC4_eval]
  simp only [calculate_segment_indicators, SegIndicators.mk.injEq]
  norm_num [defaultConstants]

/-- Reported group summary of the section 8 scenario group. -/
theorem msC8_eval :
    msC8 =
      { totalLength := 2, totalUsers := 100, totalFaultCount := 185658 / 10 ^ 6
        totalScheduledCount := 442 / 10 ^ 4, saidiF := 673937 / 10 ^ 6
        saidiS := 241995 / 10 ^ 6, saidiTotal := 915932 / 10 ^ 6
        saifiF := 185658 / 10 ^ 6, saifiS := 442 / 10 ^ 4
        saifiTotal := 229858 / 10 ^ 6, asai := 99989544 / 10 ^ 6 } := by
  unfold msC8 calculate_summary
  simp only [sumLength, sumFaultCount, sumScheduledCount, sumSaidiF, sumSaidiS,
    sumSaifiF, sumSaifiS, groupSaidiTotal, groupSaifiTotal, groupAsai, indList,
    List.map_cons, List.map_nil, List.sum_cons, List.sum_nil, add_zero,
    ind_rowC4, GroupSummary.mk.injEq]
  refine ⟨?_, trivial, ?_, ?_, ?_, ?_, ?_, ?_, ?_, ?_, ?_⟩
  · rw [rowC4_eval]
    exact roundTo_eq_low 4 _ _ 20000 (by norm_num) (by norm_num) (by norm_num)
  · exact roundTo_eq_high 6 _ _ 185657 (by norm_num) (by norm_num) (by norm_num)
  · exact roundTo_eq_low 6 _ _ 44200 (by norm_num) (by norm_num) (by norm_num)
  · exact roundTo_eq_low 6 _ _ 673937 (by norm_num) (by norm_num) (by norm_num)
  · exact roundTo_eq_low 6 _ _ 241995 (by norm_num) (by norm_num) (by norm_num)
  · exact roundTo_eq_low 6 _ _ 915932 (by norm_num) (by norm_num) (by norm_num)
  · exact roundTo_eq_high 6 _ _ 185657 (by norm_num) (by norm_num) (by norm_num)
  · exact roundTo_eq_low 6 _ _ 44200 (by norm_num) (by norm_num) (by norm_num)
  · exact roundTo_eq_high 6 _ _ 229857 (by norm_num) (by norm_num) (by norm_num)
  · rw [if_pos (by norm_num : (0 : ℚ) < 100)]
    exact roundTo_eq_low 6 _ _ 99989544 (by norm_num [defaultConstants])
      (by norm_num [defaultConstants]) (by norm_num)

/-- A value strictly below minus one half rounds to a negative integer. -/
theorem roundTo_neg (k : ℕ) (q : ℚ) (h : q * 10 ^ k < -(1 / 2)) :
    roundTo k q < 0 := by
  unfold roundTo
  apply div_neg_of_neg_of_pos
  · have h0 : roundHalfEven (q * 10 ^ k) < 0 :=
      roundHalfEven_lt (q * 10 ^ k) 0 (by push_cast; linarith)
    exact_mod_cast h0
  · positivity

/-- A value whose scaled form exceeds `10 ^ 8 + 1 / 2` reports a rounded
value above 100. -/
theorem roundTo_gt100 (q : ℚ) (h : (10 ^ 8 : ℚ) + 1 / 2 < q * 10 ^ 6) :
    100 < roundTo 6 q := by
  unfold roundTo
  have h1 : (10 ^ 8 : ℤ) < roundHalfEven (q * 10 ^ 6) :=
    roundHalfEven_gt (q * 10 ^ 6) (10 ^ 8) (by push_cast; linarith)
  have h2 : (10 ^ 8 : ℚ) + 1 ≤ (roundHalfEven (q * 10 ^ 6) : ℚ) := by
    exact_mod_cast Int.add_one_le_iff.mpr h1
  rw [lt_div_iff₀ (by norm_num : (0 : ℚ) < 10 ^ 6)]
  linarith

/-- Evaluated second-group row of the feeder ASAI comparison. -/
theorem rowC8b_eval :
    rowC8b =
      { lengthKm := 4, userCount := 50, faultRate := 9282879 / 10 ^ 8
        isolationTime := 2 } := by
  unfold rowC8b mkRow
  rw [parse_descC4]
  simp [get_isolation_time, defaultConstants]

/-- Indicator record of the second-group row. -/
theorem ind_rowC8b :
    calculate_segment_indicators rowC8b 50 defaultConstants =
      { faultCount := 37131516 / 10 ^ 8, faultDuration := 5073 / 10 ^ 3
        scheduledCount := 884 / 10 ^ 4, saidiF := 188368180668 / 10 ^ 11
        saifiF := 37131516 / 10 ^ 8, saidiS := 48399 / 10 ^ 5
        saifiS := 884 / 10 ^ 4, saidiTotal := 236767180668 / 10 ^ 11
        saifiTotal := 45971516 / 10 ^ 8 } := by
  rw [rowC8b_eval]
  simp only [calculate_segment_indicators, SegIndicators.mk.injEq]
  norm_num [defaultConstants]

/-- Reported group summary of the second group. -/
theorem bsC8_eval :
    bsC8 =
      { totalLength := 4, totalUsers := 50, totalFaultCount := 371315 / 10 ^ 6
        totalScheduledCount := 884 / 10 ^ 4, saidiF := 1883682 / 10 ^ 6
        saidiS := 48399 / 10 ^ 5, saidiTotal := 2367672 / 10 ^ 6
        saifiF := 371315 / 10 ^ 6, saifiS := 884 / 10 ^ 4
        saifiTotal := 459715 / 10 ^ 6, asai := 99972972 / 10 ^ 6 } := by
  unfold bsC8 calculate_summary
  simp only [sumLength, sumFaultCount, sumScheduledCount, sumSaidiF, sumSaidiS,
    sumSaifiF, sumSaifiS, groupSaidiTotal, groupSaifiTotal, groupAsai, indList,
    List.map_cons, List.map_nil, List.sum_cons, List.sum_nil, add_zero,
    ind_rowC8b, GroupSummary.mk.injEq]
  refine ⟨?_, trivial, ?_, ?_, ?_, ?_, ?_, ?_, ?_, ?_, ?_⟩
  · rw [rowC8b_eval]
    exact roundTo_eq_low 4 _ _ 40000 (by norm_num) (by norm_num) (by norm_num)
  · exact roundTo_eq_low 6 _ _ 371315 (by norm_num) (by norm_num) (by norm_num)
  · exact roundTo_eq_low 6 _ _ 88400 (by norm_num) (by norm_num) (by norm_num)
  · exact roundTo_eq_high 6 _ _ 1883681 (by norm_num) (by norm_num) (by norm_num)
  · exact roundTo_eq_low 6 _ _ 483990 (by norm_num) (by norm_num) (by norm_num)
  · exact roundTo_eq_high 6 _ _ 2367671 (by norm_num) (by norm_num) (by norm_num)
  · exact roundTo_eq_low 6 _ _ 371315 (by norm_num) (by norm_num) (by norm_num)
  · exact roundTo_eq_low 6 _ _ 88400 (by norm_num) (by norm_num) (by norm_num)
  · exact roundTo_eq_low 6 _ _ 459715 (by norm_num) (by norm_num) (by norm_num)
  · rw [if_pos (by norm_num : (0 : ℚ) < 50)]
    exact roundTo_eq_high 6 _ _ 99972971 (by norm_num [defaultConstants])
      (by norm_num [defaultConstants]) (by norm_num)

/-- Evaluated rounding-interaction row. -/
theorem rowC7_eval :
    rowC7 =
      { lengthKm := 4 / 1209975, userCount := 100
        faultRate := 9282879 / 10 ^ 8, isolationTime := 557 / 10 ^ 3 } := by
  unfold rowC7 mkRow
  rw [parse_descC4]
  simp [get_isolation_time, defaultConstants]

/-- Indicator record of the rounding-interaction row. -/
theorem ind_rowC7 :
    calculate_segment_indicators rowC7 100 defaultConstants =
      { faultCount := 37131516 / (1209975 * 10 ^ 8), faultDuration := 363 / 100
        scheduledCount := 884 / (1209975 * 10 ^ 4)
        saidiF := 13478740308 / (1209975 * 10 ^ 10)
        saifiF := 37131516 / (1209975 * 10 ^ 8), saidiS := 4 / 10 ^ 7
        saifiS := 884 / (1209975 * 10 ^ 4)
        saidiTotal := 13478740308 / (1209975 * 10 ^ 10) + 4 / 10 ^ 7
        saifiTotal := 37131516 / (1209975 * 10 ^ 8) + 884 / (1209975 * 10 ^ 4) } := by
  rw [rowC7_eval]
  simp only [calculate_segment_indicators, SegIndicators.mk.injEq]
  norm_num [defaultConstants]

/-- Reported group summary of the rounding-interaction group: SAIDI-F
reports as 0.000001 and SAIDI-S as 0, while their unrounded sum reports as
0.000002. -/
theorem msC7_eval :
    msC7 =
      { totalLength := 0, totalUsers := 100, totalFaultCount := 0
        totalScheduledCount := 0, saidiF := 1 / 10 ^ 6
        saidiS := 0, saidiTotal := 2 / 10 ^ 6
        saifiF := 0, saifiS := 0
        saifiTotal := 0, asai := 100 } := by
  unfold msC7 calculate_summary
  simp only [sumLength, sumFaultCount, sumScheduledCount, sumSaidiF, sumSaidiS,
    sumSaifiF, sumSaifiS, groupSaidiTotal, groupSaifiTotal, groupAsai, indList,
    List.map_cons, List.map_nil, List.sum_cons, List.sum_nil, add_zero,
    ind_rowC7, GroupSummary.mk.injEq]
  refine ⟨?_, trivial, ?_, ?_, ?_, ?_, ?_, ?_, ?_, ?_, ?_⟩
  · rw [rowC7_eval]
    exact roundTo_eq_low 4 _ _ 0 (by norm_num) (by norm_num) (by norm_num)
  · exact roundTo_eq_low 6 _ _ 0 (by norm_num) (by norm_num) (by norm_num)
  · exact roundTo_eq_low 6 _ _ 0 (by norm_num) (by norm_num) (by norm_num)
  · exact roundTo_eq_low 6 _ _ 1 (by norm_num) (by norm_num) (by norm_num)
  · exact roundTo_eq_low 6 _ _ 0 (by norm_num) (by norm_num) (by norm_num)
  · exact roundTo_eq_high 6 _ _ 1 (by norm_num) (by norm_num) (by norm_num)
  · exact roundTo_eq_low 6 _ _ 0 (by norm_num) (by norm_num) (by norm_num)
  · exact roundTo_eq_low 6 _ _ 0 (by norm_num) (by norm_num) (by norm_num)
  · exact roundTo_eq_low 6 _ _ 0 (by norm_num) (by norm_num) (by norm_num)
  · rw [if_pos (by norm_num : (0 : ℚ) < 100)]
    exact roundTo_eq_high 6 _ _ 99999999 (by norm_num [defaultConstants])
      (by norm_num [defaultConstants]) (by norm_num)

/-- Reported group summary of an empty group with zero users. -/
theorem bsC7_eval :
    bsC7 =
      { totalLength := 0, totalUsers := 0, totalFaultCount := 0
        totalScheduledCount := 0, saidiF := 0, saidiS := 0, saidiTotal := 0
        saifiF := 0, saifiS := 0, saifiTotal := 0, asai := 100 } := by
  unfold bsC7 calculate_summary
  simp only [sumLength, sumFaultCount, sumScheduledCount, sumSaidiF, sumSaidiS,
    sumSaifiF, sumSaifiS, groupSaidiTotal, groupSaifiTotal, groupAsai, indList,
    List.map_nil, List.sum_nil, add_zero, GroupSummary.mk.injEq]
  refine ⟨?_, trivial, ?_, ?_, ?_, ?_, ?_, ?_, ?_, ?_, ?_⟩
  · exact roundTo_eq_low 4 _ _ 0 (by norm_num) (by norm_num) (by norm_num)
  · exact roundTo_eq_low 6 _ _ 0 (by norm_num) (by norm_num) (by norm_num)
  · exact roundTo_eq_low 6 _ _ 0 (by norm_num) (by norm_num) (by norm_num)
  · exact roundTo_eq_low 6 _ _ 0 (by norm_num) (by norm_num) (by norm_num)
  · exact roundTo_eq_low 6 _ _ 0 (by norm_num) (by norm_num) (by norm_num)
  · exact roundTo_eq_low 6 _ _ 0 (by norm_num) (by norm_num) (by norm_num)
  · exact roundTo_eq_low 6 _ _ 0 (by norm_num) (by norm_num) (by norm_num)
  · exact roundTo_eq_low 6 _ _ 0 (by norm_num) (by norm_num) (by norm_num)
  · exact roundTo_eq_low 6 _ _ 0 (by norm_num) (by norm_num) (by norm_num)
  · rw [if_neg (by norm_num : ¬ (0 : ℚ) < 0)]
    exact roundTo_eq_low 6 _ _ (10 ^ 8) (by norm_num) (by norm_num) (by norm_num)

/-- Accumulated weights of the negative-weight descriptor: the cable
bucket is driven to minus one half. -/
theorem accum_descNegW : parseLayingAccum descNegW = (-(1 / 2), 1) := by
  rw [parseLayingAccum_eq, scannedTokens_descNegW]
  simp only [List.foldl_cons, List.foldl_nil, addTok, DecLit.val]
  norm_num

/-- Parser output for the negative-weight descriptor: the normalised
cable weight is minus one. -/
theorem parse_descNegW :
    parse_laying_weights_and_fault_rate descNegW defaultConstants =
      ⟨-1, 2, -(9282879 / 10 ^ 8) + 2 * (15337829 / 10 ^ 8)⟩ := by
  unfold parse_laying_weights_and_fault_rate
  rw [accum_descNegW]
  norm_num [defaultConstants, LayingResult.mk.injEq]

/-- Accumulated weights of the negative-rate descriptor. -/
theorem accum_descNegRate : parseLayingAccum descNegRate = (6, -5) := by
  rw [parseLayingAccum_eq, scannedTokens_descNegRate]
  simp only [List.foldl_cons, List.foldl_nil, addTok, DecLit.val]
  norm_num

/-- Parser output for the negative-rate descriptor: the weighted fault
rate is negative. -/
theorem parse_descNegRate :
    parse_laying_weights_and_fault_rate descNegRate defaultConstants =
      ⟨6, -5, -20991871 / 10 ^ 8⟩ := by
  unfold parse_laying_weights_and_fault_rate
  rw [accum_descNegRate]
  norm_num [defaultConstants, LayingResult.mk.injEq]

/-- Evaluated very-long-segment row. -/
theorem rowC10long_eval :
    rowC10long =
      { lengthKm := 10 ^ 6, userCount := 100, faultRate := 9282879 / 10 ^ 8
        isolationTime := 557 / 10 ^ 3 } := by
  unfold rowC10long mkRow
  rw [parse_descC4]
  simp [get_isolation_time, defaultConstants]

/-- Evaluated negative-rate row. -/
theorem rowC10neg_eval :
    rowC10neg =
      { lengthKm := 100, userCount := 100, faultRate := -20991871 / 10 ^ 8
        isolationTime := 557 / 10 ^ 3 } := by
  unfold rowC10neg mkRow
  rw [parse_descNegRate]
  simp [get_isolation_time, defaultConstants]

/-- Unrounded group SAIDI total of the very-long-segment group: about
457966 hours, far above the annual hours. -/
theorem saidiTotal_rowC10long :
    groupSaidiTotal [rowC10long] 100 defaultConstants = 4579660077 / 10 ^ 4 := by
  unfold groupSaidiTotal sumSaidiF sumSaidiS indList
  rw [rowC10long_eval]
  simp only [List.map_cons, List.map_nil, List.sum_cons, List.sum_nil, add_zero,
    calculate_segment_indicators]
  norm_num [defaultConstants]

/-- Unrounded group SAIDI total of the negative-rate group: negative. -/
theorem saidiTotal_rowC10neg :
    groupSaidiTotal [rowC10neg] 100 defaultConstants = -6410074173 / 10 ^ 8 := by
  unfold groupSaidiTotal sumSaidiF sumSaidiS indList
  rw [rowC10neg_eval]
  simp only [List.map_cons, List.map_nil, List.sum_cons, List.sum_nil, add_zero,
    calculate_segment_indicators]
  norm_num [defaultConstants]

/-- The reported ASAI of the very-long-segment group is negative. -/
theorem asai_rowC10long_neg :
    (calculate_summary [rowC10long] 100 defaultConstants).asai < 0 := by
  show roundTo 6 (groupAsai [rowC10long] 100 defaultConstants) < 0
  apply roundTo_neg
  unfold groupAsai
  rw [if_pos (by norm_num : (0 : ℚ) < 100), saidiTotal_rowC10long]
  norm_num [defaultConstants]

/-- The reported ASAI of the negative-rate group exceeds 100. -/
theorem asai_rowC10neg_gt100 :
    100 < (calculate_summary [rowC10neg] 100 defaultConstants).asai := by
  show 100 < roundTo 6 (groupAsai [rowC10neg] 100 defaultConstants)
  apply roundTo_gt100
  unfold groupAsai
  rw [if_pos (by norm_num : (0 : ℚ) < 100), saidiTotal_rowC10neg]
  norm_num [defaultConstants]

/-- Evaluated zero-user row (string automation cell "FALSE" resolves to
the manual isolation time). -/
theorem rowC5_eval :
    rowC5 =
      { lengthKm := 3, userCount := 0, faultRate := 9282879 / 10 ^ 8
        isolationTime := 2 } := by
  unfold rowC5 mkRow
  rw [parse_descC4]
  simp only [get_isolation_time]
  rw [if_neg (by decide)]
  rfl

/-- User-count sum of the singleton rounding-interaction group. -/
theorem usersum_rowC7 : (List.map SegRow.userCount [rowC7]).sum = 100 := by
  rw [rowC7_eval]
  simp

/-- User-count sum of the singleton zero-user group. -/
theorem usersum_rowC5 : (List.map SegRow.userCount [rowC5]).sum = 0 := by
  rw [rowC5_eval]
  simp

/-- Integer floor of the rational 100. -/
theorem floor_hundred : ((⌊(100 : ℚ)⌋ : ℤ) : ℚ) = 100 := by
  norm_num [Int.floor_eq_iff]

/-- Integer floor of the rational 0. -/
theorem floor_zero_q : ((⌊(0 : ℚ)⌋ : ℤ) : ℚ) = 0 := by
  norm_num

/-- The feeder ASAI of `run` in closed form: with a nonzero combined user
count and nonzero annual hours, the expression of lines 265 to 266 equals
`(1 - saidiTotal / annualHours) * 100` for the combined SAIDI total. -/
theorem all_asai_formula (ms bs : GroupSummary) (mu bu : ℚ) (k : Constants)
    (hau : mu + bu ≠ 0) (hA : k.Annual_Power_Hours ≠ 0) :
    all_asai ms bs mu bu k =
      (1 - (all_saidi_f ms bs mu bu + all_saidi_s ms bs mu bu) /
          k.Annual_Power_Hours) * 100 := by
  unfold all_asai
  field_simp
  ring

/-- The group ASAI of `calculate_summary` in the same closed form. -/
theorem groupAsai_formula (rows : List SegRow) (u : ℚ) (k : Constants)
    (hu : 0 < u) (hA : k.Annual_Power_Hours ≠ 0) :
    groupAsai rows u k =
      (1 - groupSaidiTotal rows u k / k.Annual_Power_Hours) * 100 := by
  unfold groupAsai
  rw [if_pos hu]
  field_simp
  ring

/-- With a zero line-user denominator every per-segment intensity field is
zero (the `np.where` guard `line_total_users > 0` fails). -/
theorem ind_zero_lineUsers (r : SegRow) (k : Constants) :
    (calculate_segment_indicators r 0 k).saidiF = 0 ∧
    (calculate_segment_indicators r 0 k).saifiF = 0 ∧
    (calculate_segment_indicators r 0 k).saidiS = 0 ∧
    (calculate_segment_indicators r 0 k).saifiS = 0 ∧
    (calculate_segment_indicators r 0 k).saidiTotal = 0 ∧
    (calculate_segment_indicators r 0 k).saifiTotal = 0 := by
  simp only [calculate_segment_indicators]
  norm_num

/-- Sum of SAIDI-F over a zero-user group is zero. -/
theorem sumSaidiF_zero (rows : List SegRow) (k : Constants) :
    sumSaidiF rows 0 k = 0 := by
  unfold sumSaidiF indList
  apply List.sum_eq_zero
  intro x hx
  simp only [List.map_map, List.mem_map, Function.comp] at hx
  obtain ⟨r, _, rfl⟩ := hx
  exact (ind_zero_lineUsers r k).1

/-- Sum of SAIFI-F over a zero-user group is zero. -/
theorem sumSaifiF_zero (rows : List SegRow) (k : Constants) :
    sumSaifiF rows 0 k = 0 := by
  unfold sumSaifiF indList
  apply List.sum_eq_zero
  intro x hx
  simp only [List.map_map, List.mem_map, Function.comp] at hx
  obtain ⟨r, _, rfl⟩ := hx
  exact (ind_zero_lineUsers r k).2.1

/-- Sum of SAIDI-S over a zero-user group is zero. -/
theorem sumSaidiS_zero (rows : List SegRow) (k : Constants) :
    sumSaidiS rows 0 k = 0 := by
  unfold sumSaidiS indList
  apply List.sum_eq_zero
  intro x hx
  simp only [List.map_map, List.mem_map, Function.comp] at hx
  obtain ⟨r, _, rfl⟩ := hx
  exact (ind_zero_lineUsers r k).2.2.1

/-- Sum of SAIFI-S over a zero-user group is zero. -/
theorem sumSaifiS_zero (rows : List SegRow) (k : Constants) :
    sumSaifiS rows 0 k = 0 := by
  unfold sumSaifiS indList
  apply List.sum_eq_zero
  intro x hx
  simp only [List.map_map, List.mem_map, Function.comp] at hx
  obtain ⟨r, _, rfl⟩ := hx
  exact (ind_zero_lineUsers r k).2.2.2.1

/-- Rounding a zero value gives zero. -/
theorem roundTo_zero (k : ℕ) : roundTo k 0 = 0 :=
  roundTo_eq_low k 0 0 0 (by norm_num) (by norm_num) (by norm_num)

/-- Rounding the value 100 to six decimals gives 100. -/
theorem roundTo6_hundred : roundTo 6 100 = 100 :=
  roundTo_eq_low 6 100 100 (10 ^ 8) (by norm_num) (by norm_num) (by norm_num)

/-! ### Claim theorems -/

/-- C1 (counterexample): the claim as stated is false. On the descriptor
"A: -50%, JKB: 100%" (a token with a negative percentage, which the parser
accepts), the returned cable weight is negative, outside `[0, 1]`. -/
theorem C1_counterexample :
    (parse_laying_weights_and_fault_rate descNegW defaultConstants).cableWeight
      < 0 := by
  rw [parse_descNegW]
  norm_num

/-- C1 (amended): for every descriptor string the returned cable and
overhead weights sum exactly to 1; and whenever the accumulated cable and
overhead sums are both nonnegative (in particular whenever no token has a
negative percentage) both returned weights lie in `[0, 1]`. -/
theorem C1_weights (s : String) (k : Constants) :
    (parse_laying_weights_and_fault_rate s k).cableWeight +
        (parse_laying_weights_and_fault_rate s k).overheadWeight = 1 ∧
    (0 ≤ (parseLayingAccum s).1 → 0 ≤ (parseLayingAccum s).2 →
      0 ≤ (parse_laying_weights_and_fault_rate s k).cableWeight ∧
      (parse_laying_weights_and_fault_rate s k).cableWeight ≤ 1 ∧
      0 ≤ (parse_laying_weights_and_fault_rate s k).overheadWeight ∧
      (parse_laying_weights_and_fault_rate s k).overheadWeight ≤ 1) := by
  simp only [parse_laying_weights_and_fault_rate]
  by_cases hle : (parseLayingAccum s).1 + (parseLayingAccum s).2 ≤ 0
  · simp only [if_pos hle]
    norm_num
  · simp only [if_neg hle]
    push_neg at hle
    constructor
    · rw [div_add_div_same, div_self (ne_of_gt hle)]
    · intro hc ho
      refine ⟨div_nonneg hc (le_of_lt hle), ?_,
        div_nonneg ho (le_of_lt hle), ?_⟩
      · rw [div_le_one hle]; linarith
      · rw [div_le_one hle]; linarith

/-- C1 (witness): on the pure-cable descriptor both accumulated weights
are nonnegative, so the weights are in `[0, 1]` and sum to 1. -/
theorem C1_witness :
    (0 ≤ (parseLayingAccum descC4).1 ∧ 0 ≤ (parseLayingAccum descC4).2) ∧
    (parse_laying_weights_and_fault_rate descC4 defaultConstants).cableWeight +
        (parse_laying_weights_and_fault_rate descC4 defaultConstants).overheadWeight
          = 1 ∧
    0 ≤ (parse_laying_weights_and_fault_rate descC4 defaultConstants).cableWeight ∧
    (parse_laying_weights_and_fault_rate descC4 defaultConstants).cableWeight ≤ 1 ∧
    0 ≤ (parse_laying_weights_and_fault_rate descC4 defaultConstants).overheadWeight ∧
    (parse_laying_weights_and_fault_rate descC4 defaultConstants).overheadWeight ≤ 1 :=
  ⟨⟨by rw [accum_descC4]; norm_num, by rw [accum_descC4]⟩,
   (C1_weights descC4 defaultConstants).1,
   (C1_weights descC4 defaultConstants).2 (by rw [accum_descC4]; norm_num)
     (by rw [accum_descC4])⟩

/-- C2: the accumulated cable weight is exactly the sum of the parsed
weights of the scanned tokens without `JK` in the uppercased name, the
overhead weight exactly the sum over those with `JK` (the boolean scan
flag agrees with substring containment of `JK`); and when the accumulated
total is not positive, the parser returns cable weight 0, overhead weight
1 and the overhead fault rate. -/
theorem C2_classification (s : String) (k : Constants) :
    parseLayingAccum s =
      (classWeightSum false (pyTokens (trimChars s.data)),
       classWeightSum true (pyTokens (trimChars s.data))) ∧
    (∀ name : List Char, hasJK name = true ↔ ['J', 'K'] <:+: name) ∧
    ((parseLayingAccum s).1 + (parseLayingAccum s).2 ≤ 0 →
      (parse_laying_weights_and_fault_rate s k).cableWeight = 0 ∧
      (parse_laying_weights_and_fault_rate s k).overheadWeight = 1 ∧
      (parse_laying_weights_and_fault_rate s k).faultRate =
        k.Overhead_Fault_Rate) := by
  refine ⟨parseLayingAccum_classSums s, hasJK_iff, ?_⟩
  intro hle
  simp only [parse_laying_weights_and_fault_rate, if_pos hle]
  norm_num

/-- C2 (witness): a descriptor with no parseable token accumulates total
zero, and the parser falls back to pure overhead with the overhead fault
rate. -/
theorem C2_witness :
    (parse_laying_weights_and_fault_rate descNoColon defaultConstants).cableWeight
        = 0 ∧
    (parse_laying_weights_and_fault_rate descNoColon defaultConstants).overheadWeight
        = 1 ∧
    (parse_laying_weights_and_fault_rate descNoColon defaultConstants).faultRate =
      defaultConstants.Overhead_Fault_Rate :=
  (C2_classification descNoColon defaultConstants).2.2
    (by rw [parseLayingAccum_eq, scannedTokens_descNoColon]; simp)

/-- C3: a token whose name part (before the last colon) is "NONE" after
trimming and uppercasing, or empty after trimming, leaves the accumulator
unchanged; and the mixed descriptor with a "None" line renormalises over
the two remaining tokens only: overhead 7143/8572 (about 0.8333, not
0.7143) and cable 1429/8572 (about 0.1667, not 0.1429). -/
theorem C3_none_renormalisation :
    (∀ (acc : ℚ × ℚ) (seg n v : List Char), lastColonSplit seg = some (n, v) →
        (pyUpper (trimChars n) = NONEchars ∨ trimChars n = []) →
        stepToken acc seg = acc) ∧
    (parse_laying_weights_and_fault_rate descC3 defaultConstants).overheadWeight
        = 7143 / 8572 ∧
    (parse_laying_weights_and_fault_rate descC3 defaultConstants).cableWeight
        = 1429 / 8572 ∧
    |(parse_laying_weights_and_fault_rate descC3 defaultConstants).overheadWeight
        - 8333 / 10 ^ 4| < 1 / 10 ^ 4 ∧
    |(parse_laying_weights_and_fault_rate descC3 defaultConstants).cableWeight
        - 1667 / 10 ^ 4| < 1 / 10 ^ 4 ∧
    (parse_laying_weights_and_fault_rate descC3 defaultConstants).overheadWeight
        ≠ 7143 / 10 ^ 4 ∧
    (parse_laying_weights_and_fault_rate descC3 defaultConstants).cableWeight
        ≠ 1429 / 10 ^ 4 := by
  have haccum : parseLayingAccum descC3 = (1429 / 10 ^ 4, 7143 / 10 ^ 4) := by
    rw [parseLayingAccum_eq, scannedTokens_descC3]
    simp only [List.foldl_cons, List.foldl_nil, addTok, DecLit.val]
    norm_num
  have hparse :
      parse_laying_weights_and_fault_rate descC3 defaultConstants =
        ⟨1429 / 8572, 7143 / 8572,
         ((1429 / 10 ^ 4) * (9282879 / 10 ^ 8) +
             (7143 / 10 ^ 4) * (15337829 / 10 ^ 8)) / (8572 / 10 ^ 4)⟩ := by
    unfold parse_laying_weights_and_fault_rate
    rw [haccum]
    norm_num [defaultConstants, LayingResult.mk.injEq]
  refine ⟨?_, ?_, ?_, ?_, ?_, ?_, ?_⟩
  · intro acc seg n v hsplit hname
    have hscan : tokenScan seg = none := by
      unfold tokenScan
      rw [hsplit]
      rcases hname with h | h
      · simp [h]
      · simp [h]
    unfold stepToken
    rw [hscan]
  · rw [hparse]
  · rw [hparse]
  · rw [hparse]
    rw [abs_lt]
    norm_num
  · rw [hparse]
    rw [abs_lt]
    norm_num
  · rw [hparse]
    norm_num
  · rw [hparse]
    norm_num

/-- C3 (witness): the "None" line of the scenario descriptor leaves a
concrete accumulator unchanged. -/
theorem C3_witness : stepToken (0, 0) (("None: 14.29%").data) = (0, 0) :=
  C3_none_renormalisation.1 (0, 0) (("None: 14.29%").data) (("None").data)
    ((" 14.29%").data) (by decide) (Or.inl (by decide))

/-- C4 (counterexample): in the section 8 scenario the computed SAIDI-F is
0.6739370154, strictly below the claimed value 0.674137. -/
theorem C4_counterexample :
    (calculate_segment_indicators rowC4 100 defaultConstants).saidiF
      < 674137 / 10 ^ 6 := by
  rw [ind_rowC4]
  norm_num

/-- C4 (amended): the section 8 scenario yields fault rate 0.09282879,
fault count 0.18565758, fault duration 3.63, saidiF 0.6739370154 (the
product 0.18565758 times 3.63, not 0.674137), saifiF 0.18565758,
scheduled count 0.0442, saidiS 0.241995, saifiS 0.0442, and a reported
group ASAI of 99.989544 percent. -/
theorem C4_scenario :
    (parse_laying_weights_and_fault_rate descC4 defaultConstants).faultRate =
      9282879 / 10 ^ 8 ∧
    calculate_segment_indicators rowC4 100 defaultConstants =
      { faultCount := 18565758 / 10 ^ 8, faultDuration := 363 / 100
        scheduledCount := 442 / 10 ^ 4, saidiF := 6739370154 / 10 ^ 10
        saifiF := 18565758 / 10 ^ 8, saidiS := 241995 / 10 ^ 6
        saifiS := 442 / 10 ^ 4, saidiTotal := 9159320154 / 10 ^ 10
        saifiTotal := 22985758 / 10 ^ 8 } ∧
    (calculate_summary [rowC4] 100 defaultConstants).asai = 99989544 / 10 ^ 6 := by
  refine ⟨?_, ind_rowC4, ?_⟩
  · rw [parse_descC4]
  · rw [show calculate_summary [rowC4] 100 defaultConstants = msC8 from rfl,
      msC8_eval]

/-- C5 (counterexample): a zero-user segment still carries the nonzero
fault duration column (isolation time 2 plus repair time 3.073), so not
every derived field is set to 0. -/
theorem C5_counterexample :
    (calculate_segment_indicators rowC5 50 defaultConstants).faultDuration =
        5073 / 10 ^ 3 ∧
    (5073 : ℚ) / 10 ^ 3 ≠ 0 := by
  constructor
  · rw [rowC5_eval]
    simp only [calculate_segment_indicators]
    norm_num [defaultConstants]
  · norm_num

/-- C5 (amended): for a segment with zero user count every derived
indicator except the fault duration is set to 0 (so the segment adds
nothing to any group indicator sum), while the fault duration column keeps
the value isolation time plus repair time. -/
theorem C5_invalid_segment (r : SegRow) (u : ℚ) (k : Constants)
    (h : r.userCount = 0) :
    (calculate_segment_indicators r u k).faultCount = 0 ∧
    (calculate_segment_indicators r u k).scheduledCount = 0 ∧
    (calculate_segment_indicators r u k).saidiF = 0 ∧
    (calculate_segment_indicators r u k).saifiF = 0 ∧
    (calculate_segment_indicators r u k).saidiS = 0 ∧
    (calculate_segment_indicators r u k).saifiS = 0 ∧
    (calculate_segment_indicators r u k).saidiTotal = 0 ∧
    (calculate_segment_indicators r u k).saifiTotal = 0 ∧
    (calculate_segment_indicators r u k).faultDuration =
      r.isolationTime + k.Cable_Repair_Time := by
  simp only [calculate_segment_indicators, h]
  norm_num

/-- C5 (witness): the zero-user row has all indicators zero and fault
duration 5.073. -/
theorem C5_witness :
    (calculate_segment_indicators rowC5 50 defaultConstants).faultCount = 0 ∧
    (calculate_segment_indicators rowC5 50 defaultConstants).scheduledCount = 0 ∧
    (calculate_segment_indicators rowC5 50 defaultConstants).saidiF = 0 ∧
    (calculate_segment_indicators rowC5 50 defaultConstants).saifiF = 0 ∧
    (calculate_segment_indicators rowC5 50 defaultConstants).saidiS = 0 ∧
    (calculate_segment_indicators rowC5 50 defaultConstants).saifiS = 0 ∧
    (calculate_segment_indicators rowC5 50 defaultConstants).saidiTotal = 0 ∧
    (calculate_segment_indicators rowC5 50 defaultConstants).saifiTotal = 0 ∧
    (calculate_segment_indicators rowC5 50 defaultConstants).faultDuration =
      rowC5.isolationTime + defaultConstants.Cable_Repair_Time :=
  C5_invalid_segment rowC5 50 defaultConstants (by rw [rowC5_eval])

/-- C6: a group whose total user count is 0 reports ASAI exactly 100 and
every intensity metric 0 (all divisions by the user count are guarded). -/
theorem C6_zero_user_group (rows : List SegRow) (k : Constants) :
    (calculate_summary rows 0 k).saidiF = 0 ∧
    (calculate_summary rows 0 k).saidiS = 0 ∧
    (calculate_summary rows 0 k).saidiTotal = 0 ∧
    (calculate_summary rows 0 k).saifiF = 0 ∧
    (calculate_summary rows 0 k).saifiS = 0 ∧
    (calculate_summary rows 0 k).saifiTotal = 0 ∧
    (calculate_summary rows 0 k).asai = 100 := by
  unfold calculate_summary
  simp only [groupSaidiTotal, groupSaifiTotal, groupAsai, sumSaidiF_zero,
    sumSaidiS_zero, sumSaifiF_zero, sumSaifiS_zero, add_zero]
  rw [if_neg (by norm_num : ¬ (0 : ℚ) < 0)]
  exact ⟨roundTo_zero 6, roundTo_zero 6, roundTo_zero 6, roundTo_zero 6,
    roundTo_zero 6, roundTo_zero 6, roundTo6_hundred⟩

/-- C7 (counterexample): in the rounding-interaction scenario the pipeline
reports a feeder SAIDI total of 0.000001, while the section 4.5 formula
applied to the reported group SAIDI totals gives 0.000002: the feeder
SAIDI total is the sum of the two weighted averages, not the weighted
average of the reported group totals. -/
theorem C7_counterexample :
    (run_feeder [rowC7] [] defaultConstants).map
        (fun t => (t.1.saidiTotal, t.2.2.saidiTotal)) =
      Except.ok (2 / 10 ^ 6, 1 / 10 ^ 6) ∧
    roundTo 6 (specWeightedAvg (2 / 10 ^ 6) 0 100 0) = 2 / 10 ^ 6 ∧
    (1 : ℚ) / 10 ^ 6 ≠ 2 / 10 ^ 6 := by
  refine ⟨?_, ?_, by norm_num⟩
  · simp only [run_feeder, usersum_rowC7, List.map_nil, List.sum_nil,
      floor_hundred, floor_zero_q]
    rw [show calculate_summary [rowC7] 100 defaultConstants = msC7 from rfl,
      show calculate_summary [] 0 defaultConstants = bsC7 from rfl]
    unfold feederCombine
    rw [if_neg (by norm_num : ¬ (100 : ℚ) + 0 = 0)]
    simp only [Except.map, msC7_eval, bsC7_eval]
    unfold all_saidi_f all_saidi_s
    simp only [Except.ok.injEq, Prod.mk.injEq]
    constructor
    · trivial
    · exact roundTo_eq_low 6 _ _ 1 (by norm_num) (by norm_num) (by norm_num)
  · unfold specWeightedAvg
    exact roundTo_eq_low 6 _ _ 2 (by norm_num) (by norm_num) (by norm_num)

/-- C7 (amended): with a positive combined user count the feeder record
reports the plain sums for users, length, fault count and scheduled count,
the section 4.5 user-weighted average of the reported group values for the
four F/S intensity metrics, and for the two totals the rounded sum of the
two feeder-level F and S averages (which can differ from the weighted
average of the reported group totals). -/
theorem C7_feeder_metrics (ms bs : GroupSummary) (mu bu : ℚ) (k : Constants)
    (h : 0 < mu + bu) :
    (feederCombine ms bs mu bu k).map
        (fun fs =>
          (fs.totalUsers, fs.totalLength, fs.totalFaultCount,
           fs.totalScheduledCount, fs.saidiF, fs.saidiS, fs.saifiF, fs.saifiS,
           fs.saidiTotal, fs.saifiTotal)) =
      Except.ok (mu + bu,
        roundTo 4 (ms.totalLength + bs.totalLength),
        roundTo 6 (ms.totalFaultCount + bs.totalFaultCount),
        roundTo 6 (ms.totalScheduledCount + bs.totalScheduledCount),
        roundTo 6 (specWeightedAvg ms.saidiF bs.saidiF mu bu),
        roundTo 6 (specWeightedAvg ms.saidiS bs.saidiS mu bu),
        roundTo 6 (specWeightedAvg ms.saifiF bs.saifiF mu bu),
        roundTo 6 (specWeightedAvg ms.saifiS bs.saifiS mu bu),
        roundTo 6 (specWeightedAvg ms.saidiF bs.saidiF mu bu +
          specWeightedAvg ms.saidiS bs.saidiS mu bu),
        roundTo 6 (specWeightedAvg ms.saifiF bs.saifiF mu bu +
          specWeightedAvg ms.saifiS bs.saifiS mu bu)) := by
  unfold feederCombine
  rw [if_neg (ne_of_gt h)]
  rfl

/-- C7 (witness): the amended feeder metric shape at the concrete
rounding-interaction groups. -/
theorem C7_witness :
    (feederCombine msC7 bsC7 100 0 defaultConstants).map
        (fun fs =>
          (fs.totalUsers, fs.totalLength, fs.totalFaultCount,
           fs.totalScheduledCount, fs.saidiF, fs.saidiS, fs.saifiF, fs.saifiS,
           fs.saidiTotal, fs.saifiTotal)) =
      Except.ok (100 + 0,
        roundTo 4 (msC7.totalLength + bsC7.totalLength),
        roundTo 6 (msC7.totalFaultCount + bsC7.totalFaultCount),
        roundTo 6 (msC7.totalScheduledCount + bsC7.totalScheduledCount),
        roundTo 6 (specWeightedAvg msC7.saidiF bsC7.saidiF 100 0),
        roundTo 6 (specWeightedAvg msC7.saidiS bsC7.saidiS 100 0),
        roundTo 6 (specWeightedAvg msC7.saifiF bsC7.saifiF 100 0),
        roundTo 6 (specWeightedAvg msC7.saifiS bsC7.saifiS 100 0),
        roundTo 6 (specWeightedAvg msC7.saidiF bsC7.saidiF 100 0 +
          specWeightedAvg msC7.saidiS bsC7.saidiS 100 0),
        roundTo 6 (specWeightedAvg msC7.saifiF bsC7.saifiF 100 0 +
          specWeightedAvg msC7.saifiS bsC7.saifiS 100 0)) :=
  C7_feeder_metrics msC7 bsC7 100 0 defaultConstants (by norm_num)

/-- C8: the feeder ASAI expression equals the group formula
`(1 - saidiTotal / annualHours) * 100` applied to the combined SAIDI total
(and the group ASAI satisfies the same closed form); and for the two
concrete groups with 100 and 50 users the reported feeder ASAI 99.984020
differs from the simple average 99.981258 of the two group ASAI values. -/
theorem C8_asai_recomputed :
    (∀ (ms bs : GroupSummary) (mu bu : ℚ) (k : Constants),
        mu + bu ≠ 0 → k.Annual_Power_Hours ≠ 0 →
        all_asai ms bs mu bu k =
          (1 - (all_saidi_f ms bs mu bu + all_saidi_s ms bs mu bu) /
              k.Annual_Power_Hours) * 100) ∧
    (∀ (rows : List SegRow) (u : ℚ) (k : Constants),
        0 < u → k.Annual_Power_Hours ≠ 0 →
        groupAsai rows u k =
          (1 - groupSaidiTotal rows u k / k.Annual_Power_Hours) * 100) ∧
    (feederCombine msC8 bsC8 100 50 defaultConstants).map FeederSummary.asai =
      Except.ok (99984020 / 10 ^ 6) ∧
    (msC8.asai + bsC8.asai) / 2 = 99981258 / 10 ^ 6 ∧
    (99984020 : ℚ) / 10 ^ 6 ≠ 99981258 / 10 ^ 6 := by
  refine ⟨all_asai_formula, groupAsai_formula, ?_, ?_, by norm_num⟩
  · unfold feederCombine
    rw [if_neg (by norm_num : ¬ (100 : ℚ) + 50 = 0)]
    simp only [Except.map]
    rw [Except.ok.injEq]
    unfold all_asai all_saidi_f all_saidi_s
    rw [msC8_eval, bsC8_eval]
    exact roundTo_eq_low 6 _ _ 99984020 (by norm_num [defaultConstants])
      (by norm_num [defaultConstants]) (by norm_num)
  · rw [msC8_eval, bsC8_eval]
    norm_num

/-- C8 (witness): the closed ASAI form at the concrete two-group feeder. -/
theorem C8_witness :
    all_asai msC8 bsC8 100 50 defaultConstants =
      (1 - (all_saidi_f msC8 bsC8 100 50 + all_saidi_s msC8 bsC8 100 50) /
          defaultConstants.Annual_Power_Hours) * 100 :=
  C8_asai_recomputed.1 msC8 bsC8 100 50 defaultConstants (by norm_num)
    (by norm_num [defaultConstants])

/-- C9: with a zero combined user count the feeder combination of `run`
does not recover: the unguarded division by the combined user count is a
fault (modelled as an error value), not the documented 0-metric and
100-percent-ASAI fallback. -/
theorem C9_zero_feeder_fault :
    run_feeder [rowC5] [] defaultConstants =
      Except.error "division by zero combined user count" := by
  simp only [run_feeder, usersum_rowC5, List.map_nil, List.sum_nil,
    floor_zero_q]
  unfold feederCombine
  rw [if_pos (by norm_num : (0 : ℚ) + 0 = 0)]
  rfl

/-- C10: with positive users the group ASAI is exactly
`(1 - saidiTotal / annualHours) * 100` (the reported field being its
6-decimal rounding), with no clamping: the pipeline reaches a SAIDI total
above the annual hours with a reported ASAI below 0, and through a
negative percentage token a negative fault rate, negative SAIDI total, and
a reported ASAI above 100. -/
theorem C10_asai_unclamped :
    (∀ (rows : List SegRow) (u : ℚ) (k : Constants),
        0 < u → k.Annual_Power_Hours ≠ 0 →
        groupAsai rows u k =
          (1 - groupSaidiTotal rows u k / k.Annual_Power_Hours) * 100 ∧
        (calculate_summary rows u k).asai = roundTo 6 (groupAsai rows u k)) ∧
    (parse_laying_weights_and_fault_rate descNegRate defaultConstants).faultRate
        < 0 ∧
    8760 < groupSaidiTotal [rowC10long] 100 defaultConstants ∧
    (calculate_summary [rowC10long] 100 defaultConstants).asai < 0 ∧
    groupSaidiTotal [rowC10neg] 100 defaultConstants < 0 ∧
    100 < (calculate_summary [rowC10neg] 100 defaultConstants).asai := by
  refine ⟨fun rows u k hu hA => ⟨groupAsai_formula rows u k hu hA, rfl⟩,
    ?_, ?_, asai_rowC10long_neg, ?_, asai_rowC10neg_gt100⟩
  · rw [parse_descNegRate]
    norm_num
  · rw [saidiTotal_rowC10long]
    norm_num
  · rw [saidiTotal_rowC10neg]
    norm_num

/-- C10 (witness): the unclamped ASAI form at the section 8 scenario
group. -/
theorem C10_witness :
    groupAsai [rowC4] 100 defaultConstants =
      (1 - groupSaidiTotal [rowC4] 100 defaultConstants /
          defaultConstants.Annual_Power_Hours) * 100 ∧
    (calculate_summary [rowC4] 100 defaultConstants).asai =
      roundTo 6 (groupAsai [rowC4] 100 defaultConstants) :=
  C10_asai_unclamped.1 [rowC4] 100 defaultConstants (by norm_num)
    (by norm_num [defaultConstants])
